import Mathlib

/-!
Formal model of the data-agent MySQL tool server.

The repository has two relevant source files:

* the database-access module, with four exported functions
  (`testConnection`, `getTables`, `getTableColumns`, `executeQuery`),
  a private `createConnection` helper and a command-line `main`;
* the tool dispatcher, with per-tool type-guard validators
  (`isDatabaseConnectionArgs`, `isGetTableColumnsArgs`,
  `isExecuteQueryArgs`) and a call-tool request handler.

The MySQL driver is modelled by an environment (`DriverEnv`): the outcome
of opening a connection is a function of the configuration actually
forwarded to the driver, and the outcome of executing a statement is a
function of the SQL text and the bound parameters.  Each database
function returns its result together with the list of connection events
(`opened` / `closed`) that occurred during the call, mirroring the
`try`/`catch`/`finally` structure of the source: the `finally` block
closes the connection exactly when the `connection` local is non-null,
i.e. exactly when `createConnection` returned normally.  Closing a
connection is modelled as infallible.
-/

/-- Column information record, one row per schema column. -/
structure ColumnInfo where
  columnName : String
  columnType : String
  isNullable : String
  columnComment : String
  columnDefault : Option String
  extra : String
deriving DecidableEq

/-- Table information record, one row per table. -/
structure TableInfo where
  tableName : String
  tableComment : String
  tableType : String
  engine : String
  tableRows : Option Int
deriving DecidableEq

/-- The uniform result envelope returned by every database function.
In the source `data` and `error` are optional fields; a branch of the
source that does not mention them leaves them absent (`none` here). -/
structure DatabaseResult (α : Type) where
  success : Bool
  data : Option α
  error : Option String
  message : String
deriving DecidableEq

/-- Caller-supplied connection configuration (`port` optional). -/
structure DatabaseConfig where
  host : String
  user : String
  password : String
  database : String
  port : Option Int
deriving DecidableEq

/-- The configuration object actually handed to the driver by
`createConnection`: the `port` field has been resolved to a number. -/
structure DriverConfig where
  host : String
  user : String
  password : String
  database : String
  port : Int
deriving DecidableEq

/-- The port value forwarded to the driver: the source writes
`port: config.port || 3306`, so an absent port and a (falsy) port `0`
both become `3306`, and any other number passes through. -/
def forwardedPort : Option Int → Int
  | none => 3306
  | some p => if p = 0 then 3306 else p

/-- The driver configuration built by `createConnection` from the
caller-supplied configuration. -/
def driverConfigOf (c : DatabaseConfig) : DriverConfig :=
  { host := c.host, user := c.user, password := c.password,
    database := c.database, port := forwardedPort c.port }

/-- `createConnection`: forwards the resolved configuration to the
driver; a driver failure is re-thrown with the message
`Failed to connect to database: <driver message>`. -/
def createConnection (c : DatabaseConfig)
    (connect : DriverConfig → Except String Unit) : Except String Unit :=
  match connect (driverConfigOf c) with
  | Except.ok _ => Except.ok ()
  | Except.error e => Except.error ("Failed to connect to database: " ++ e)

/-- Connection lifecycle events observed on the driver. -/
inductive ConnEvent where
  | opened
  | closed
deriving DecidableEq

/-- Driver environment for one database function: `connect` gives the
outcome of opening a connection with a given driver configuration,
`exec` gives the outcome of executing a statement with parameters of
type `π`, producing a value of type `ρ`. -/
structure DriverEnv (π ρ : Type) where
  connect : DriverConfig → Except String Unit
  exec : String → π → Except String ρ

/-- The catalog query issued by `getTableColumns` (whitespace
normalised from the source template literal). -/
def columnsSql : String :=
  "SELECT column_name as columnName, column_type as columnType, " ++
  "is_nullable as isNullable, IFNULL(column_comment, '') as columnComment, " ++
  "column_default as columnDefault, extra " ++
  "FROM information_schema.columns " ++
  "WHERE table_schema = ? AND table_name = ? ORDER BY ordinal_position"

/-- `getTableColumns`: opens a connection, runs `columnsSql` bound to
`[database, tableName]`, succeeds iff at least one column row comes
back; every thrown error is caught and converted to a failure result;
the `finally` block closes the connection iff it was opened. -/
def getTableColumns (host user password database tableName : String)
    (port : Option Int) (env : DriverEnv (List String) (List ColumnInfo)) :
    DatabaseResult (List ColumnInfo) × List ConnEvent :=
  match createConnection ⟨host, user, password, database, port⟩ env.connect with
  | Except.error e =>
      ({ success := false, data := none, error := some e,
         message := "Failed to get columns for table " ++ tableName ++ ": " ++ e },
       [])
  | Except.ok _ =>
      match env.exec columnsSql [database, tableName] with
      | Except.error e =>
          ({ success := false, data := none, error := some e,
             message := "Failed to get columns for table " ++ tableName ++ ": " ++ e },
           [ConnEvent.opened, ConnEvent.closed])
      | Except.ok columns =>
          if columns.length > 0 then
            ({ success := true, data := some columns, error := none,
               message := "Successfully retrieved " ++ toString columns.length ++
                 " columns from table " ++ tableName },
             [ConnEvent.opened, ConnEvent.closed])
          else
            ({ success := false, data := none, error := none,
               message := "Table " ++ tableName ++
                 " does not exist or has no columns in database " ++ database },
             [ConnEvent.opened, ConnEvent.closed])

/-- The catalog query issued by `getTables` (whitespace normalised). -/
def tablesSql : String :=
  "SELECT table_name as tableName, IFNULL(table_comment, '') as tableComment, " ++
  "table_type as tableType, IFNULL(engine, '') as engine, " ++
  "table_rows as tableRows " ++
  "FROM information_schema.tables WHERE table_schema = ? ORDER BY table_name"

/-- `getTables`: opens a connection, runs `tablesSql` bound to
`[database]`, and succeeds with whatever rows come back (an empty list
included); errors are caught and converted to a failure result. -/
def getTables (host user password database : String) (port : Option Int)
    (env : DriverEnv (List String) (List TableInfo)) :
    DatabaseResult (List TableInfo) × List ConnEvent :=
  match createConnection ⟨host, user, password, database, port⟩ env.connect with
  | Except.error e =>
      ({ success := false, data := none, error := some e,
         message := "Failed to get tables from database " ++ database ++ ": " ++ e },
       [])
  | Except.ok _ =>
      match env.exec tablesSql [database] with
      | Except.error e =>
          ({ success := false, data := none, error := some e,
             message := "Failed to get tables from database " ++ database ++ ": " ++ e },
           [ConnEvent.opened, ConnEvent.closed])
      | Except.ok tables =>
          ({ success := true, data := some tables, error := none,
             message := "Successfully retrieved " ++ toString tables.length ++
               " tables from database " ++ database },
           [ConnEvent.opened, ConnEvent.closed])

/-- JSON-like values, as far as the dispatcher's type guards and the
query layer observe them (`typeof x === 'string'`, `typeof x ===
'number'`, `Array.isArray`). -/
inductive JVal where
  | jStr : String → JVal
  | jNum : Int → JVal
  | jBool : Bool → JVal
  | jArr : List JVal → JVal
  | jNull : JVal

/-- The raw result of `connection.execute` for an arbitrary query:
row data plus field metadata. -/
structure QueryData where
  rows : List JVal
  fields : List String

/-- `executeQuery`: opens a connection, executes the caller-supplied
statement verbatim with the optional bind parameters, and wraps the raw
rows and field metadata; errors are caught and converted. -/
def executeQuery (host user password database query : String)
    (params : Option (List JVal)) (port : Option Int)
    (env : DriverEnv (Option (List JVal)) QueryData) :
    DatabaseResult QueryData × List ConnEvent :=
  match createConnection ⟨host, user, password, database, port⟩ env.connect with
  | Except.error e =>
      ({ success := false, data := none, error := some e,
         message := "Failed to execute query: " ++ e },
       [])
  | Except.ok _ =>
      match env.exec query params with
      | Except.error e =>
          ({ success := false, data := none, error := some e,
             message := "Failed to execute query: " ++ e },
           [ConnEvent.opened, ConnEvent.closed])
      | Except.ok qd =>
          ({ success := true, data := some qd, error := none,
             message := "Query executed successfully" },
           [ConnEvent.opened, ConnEvent.closed])

/-- `testConnection`: opens a connection and runs the liveness
statement `SELECT 1`; the result carries no data on success; errors are
caught and converted. -/
def testConnection (host user password database : String) (port : Option Int)
    (env : DriverEnv Unit Unit) :
    DatabaseResult Unit × List ConnEvent :=
  match createConnection ⟨host, user, password, database, port⟩ env.connect with
  | Except.error e =>
      ({ success := false, data := none, error := some e,
         message := "Failed to connect to database " ++ database ++ "@" ++ host ++
           ": " ++ e },
       [])
  | Except.ok _ =>
      match env.exec "SELECT 1" () with
      | Except.error e =>
          ({ success := false, data := none, error := some e,
             message := "Failed to connect to database " ++ database ++ "@" ++ host ++
               ": " ++ e },
           [ConnEvent.opened, ConnEvent.closed])
      | Except.ok _ =>
          ({ success := true, data := none, error := none,
             message := "Successfully connected to database " ++ database ++ "@" ++ host },
           [ConnEvent.opened, ConnEvent.closed])

/-!
The tool dispatcher. A call-tool request carries a tool name and an
optional arguments object, modelled as an association list of fields.
The handler validates the arguments with the tool's type guard, invokes
the matching database function, and serialises the result; thrown
errors (invalid arguments, unknown tool) are caught at the dispatch
boundary and rendered as an error-flagged text response.  The database
layer is abstracted as a `backend` function from the call description
to a result; the handler additionally returns the list of backend
calls it made, so that "the database function is never invoked" is the
statement that this list is empty.
-/

/-- A tool-call arguments object: an association list of fields. -/
abbrev ToolArgs := List (String × JVal)

/-- Property lookup on an arguments object (`args.key`); an absent
field reads as `undefined` (`none`). -/
def getField (args : ToolArgs) (key : String) : Option JVal :=
  match args with
  | [] => none
  | (k, v) :: rest => if k = key then some v else getField rest key

/-- `typeof args.key === 'string'`. -/
def isStringField (args : ToolArgs) (key : String) : Bool :=
  match getField args key with
  | some (JVal.jStr _) => true
  | _ => false

/-- `typeof args.key === 'number'`. -/
def isNumberField (args : ToolArgs) (key : String) : Bool :=
  match getField args key with
  | some (JVal.jNum _) => true
  | _ => false

/-- `args.key === undefined`. -/
def isUndefinedField (args : ToolArgs) (key : String) : Bool :=
  (getField args key).isNone

/-- `Array.isArray(args.key)`. -/
def isArrayField (args : ToolArgs) (key : String) : Bool :=
  match getField args key with
  | some (JVal.jArr _) => true
  | _ => false

/-- Type guard for `get_tables` and `test_connection` arguments. -/
def isDatabaseConnectionArgs (args : ToolArgs) : Bool :=
  isStringField args "host" && isStringField args "user" &&
  isStringField args "password" && isStringField args "database" &&
  (isUndefinedField args "port" || isNumberField args "port")

/-- Type guard for `get_table_columns` arguments. -/
def isGetTableColumnsArgs (args : ToolArgs) : Bool :=
  isStringField args "host" && isStringField args "user" &&
  isStringField args "password" && isStringField args "database" &&
  isStringField args "tableName" &&
  (isUndefinedField args "port" || isNumberField args "port")

/-- Type guard for `execute_query` arguments. -/
def isExecuteQueryArgs (args : ToolArgs) : Bool :=
  isStringField args "host" && isStringField args "user" &&
  isStringField args "password" && isStringField args "database" &&
  isStringField args "query" &&
  (isUndefinedField args "port" || isNumberField args "port") &&
  (isUndefinedField args "params" || isArrayField args "params")

/-- Read a string field after the guard has passed. -/
def strField (args : ToolArgs) (key : String) : String :=
  match getField args key with
  | some (JVal.jStr s) => s
  | _ => ""

/-- Read the optional `port` field (`undefined` stays `none`). -/
def portField (args : ToolArgs) : Option Int :=
  match getField args "port" with
  | some (JVal.jNum n) => some n
  | _ => none

/-- Read the optional `params` field (`undefined` stays `none`). -/
def paramsField (args : ToolArgs) : Option (List JVal) :=
  match getField args "params" with
  | some (JVal.jArr l) => some l
  | _ => none

/-- A call made by the dispatcher into the database layer, with the
argument values it passes. -/
inductive DbCall where
  | getTableColumnsCall (host user password database tableName : String)
      (port : Option Int)
  | getTablesCall (host user password database : String) (port : Option Int)
  | executeQueryCall (host user password database query : String)
      (params : Option (List JVal)) (port : Option Int)
  | testConnectionCall (host user password database : String) (port : Option Int)

/-- The protocol response to a tool call: a single text content block
and the error flag (absent in the source on the success path, which
reads as `false`). -/
structure ToolResponse where
  text : String
  isError : Bool

mutual

/-- Model of `JSON.stringify` on a JSON value (formatting simplified,
structure preserved). -/
def stringifyJVal : JVal → String
  | JVal.jStr s => "\"" ++ s ++ "\""
  | JVal.jNum n => toString n
  | JVal.jBool b => if b then "true" else "false"
  | JVal.jArr l => "[" ++ stringifyJList l ++ "]"
  | JVal.jNull => "null"

/-- Comma-separated serialisation of a list of JSON values. -/
def stringifyJList : List JVal → String
  | [] => ""
  | [x] => stringifyJVal x
  | x :: xs => stringifyJVal x ++ "," ++ stringifyJList xs

end

/-- Model of `JSON.stringify(result, null, 2)` on a result envelope
(formatting simplified, fields in declaration order, absent optional
fields omitted). -/
def stringifyResult (r : DatabaseResult JVal) : String :=
  "\x7b\"success\":" ++ (if r.success then "true" else "false") ++
  (match r.data with
   | some d => ",\"data\":" ++ stringifyJVal d
   | none => "") ++
  (match r.error with
   | some e => ",\"error\":\"" ++ e ++ "\""
   | none => "") ++
  ",\"message\":\"" ++ r.message ++ "\"\x7d"

/-- The call-tool request handler.  `args = none` models a request
whose `arguments` is missing or not an object.  `backend` abstracts
the four database functions; the returned list records the backend
calls performed.  Inside the `try` block each guard failure and the
unknown-tool case `throw`, and the `catch` renders the message with an
`Error: ` prefix and `isError: true`. -/
def handleCallTool (name : String) (args : Option ToolArgs)
    (backend : DbCall → DatabaseResult JVal) : ToolResponse × List DbCall :=
  match args with
  | none => ({ text := "Error: Missing or invalid arguments", isError := true }, [])
  | some a =>
    if name = "get_table_columns" then
      if isGetTableColumnsArgs a then
        let c := DbCall.getTableColumnsCall (strField a "host") (strField a "user")
          (strField a "password") (strField a "database") (strField a "tableName")
          (portField a)
        ({ text := stringifyResult (backend c), isError := false }, [c])
      else
        ({ text := "Error: Invalid arguments for get_table_columns. " ++
             "Required: host, user, password, database, tableName",
           isError := true }, [])
    else if name = "get_tables" then
      if isDatabaseConnectionArgs a then
        let c := DbCall.getTablesCall (strField a "host") (strField a "user")
          (strField a "password") (strField a "database") (portField a)
        ({ text := stringifyResult (backend c), isError := false }, [c])
      else
        ({ text := "Error: Invalid arguments for get_tables. " ++
             "Required: host, user, password, database",
           isError := true }, [])
    else if name = "execute_query" then
      if isExecuteQueryArgs a then
        let c := DbCall.executeQueryCall (strField a "host") (strField a "user")
          (strField a "password") (strField a "database") (strField a "query")
          (paramsField a) (portField a)
        ({ text := stringifyResult (backend c), isError := false }, [c])
      else
        ({ text := "Error: Invalid arguments for execute_query. " ++
             "Required: host, user, password, database, query",
           isError := true }, [])
    else if name = "test_connection" then
      if isDatabaseConnectionArgs a then
        let c := DbCall.testConnectionCall (strField a "host") (strField a "user")
          (strField a "password") (strField a "database") (portField a)
        ({ text := stringifyResult (backend c), isError := false }, [c])
      else
        ({ text := "Error: Invalid arguments for test_connection. " ++
             "Required: host, user, password, database",
           isError := true }, [])
    else
      ({ text := "Error: Unknown tool: " ++ name, isError := true }, [])

/-- The type guard the dispatcher applies to a tool name: the guard of
the matching tool, and `false` for an unknown name (where the dispatch
`throw`s unconditionally). -/
def guardOf (name : String) (a : ToolArgs) : Bool :=
  if name = "get_table_columns" then isGetTableColumnsArgs a
  else if name = "get_tables" then isDatabaseConnectionArgs a
  else if name = "execute_query" then isExecuteQueryArgs a
  else if name = "test_connection" then isDatabaseConnectionArgs a
  else false

/-!
The command-line entry point `main`. It reads
`<command> <host> <user> <password> <database> [extraParams...]`,
dispatches on the command, and exits with code `0` on a successful
operation and `1` on a usage error or a failed operation.  The model
returns the process exit code; the driver behaviour of the four
functions is supplied by a `CliEnv`.
-/

/-- Driver environments for the four operations reachable from the
command line. -/
structure CliEnv where
  columnsEnv : DriverEnv (List String) (List ColumnInfo)
  tablesEnv : DriverEnv (List String) (List TableInfo)
  queryEnv : DriverEnv (Option (List JVal)) QueryData
  testEnv : DriverEnv Unit Unit

/-- Exit code derived from an operation result: normal return (`0`) on
success, `process.exit(1)` on failure. -/
def exitCodeOf {α : Type} (r : DatabaseResult α) : Nat :=
  if r.success then 0 else 1

/-- Model of `main`: the process exit code for a given argument vector
(`process.argv.slice(2)`). -/
def mainRun (argv : List String) (env : CliEnv) : Nat :=
  if argv.length < 5 then 1
  else
    match argv with
    | command :: host :: user :: password :: database :: extraParams =>
      if command = "test" then
        exitCodeOf (testConnection host user password database none env.testEnv).1
      else if command = "tables" then
        exitCodeOf (getTables host user password database none env.tablesEnv).1
      else if command = "columns" then
        match extraParams with
        | [] => 1
        | tableName :: _ =>
          exitCodeOf
            (getTableColumns host user password database tableName none env.columnsEnv).1
      else if command = "query" then
        match extraParams with
        | [] => 1
        | sql :: _ =>
          exitCodeOf (executeQuery host user password database sql none none env.queryEnv).1
      else 1
    | _ => 1

/-!
Sample data and driver environments used by the witness theorems.
-/

/-- A sample column row. -/
def sampleColumn : ColumnInfo :=
  { columnName := "id", columnType := "int(11)", isNullable := "NO",
    columnComment := "", columnDefault := none, extra := "auto_increment" }

/-- Environment whose connection opens and whose catalog query returns
one column row. -/
def envColumnsOne : DriverEnv (List String) (List ColumnInfo) :=
  { connect := fun _ => Except.ok (), exec := fun _ _ => Except.ok [sampleColumn] }

/-- Environment whose catalog query returns zero column rows. -/
def envColumnsEmpty : DriverEnv (List String) (List ColumnInfo) :=
  { connect := fun _ => Except.ok (), exec := fun _ _ => Except.ok [] }

/-- Environment whose connection open fails. -/
def envColumnsFail : DriverEnv (List String) (List ColumnInfo) :=
  { connect := fun _ => Except.error "boom", exec := fun _ _ => Except.error "boom" }

/-- Environment whose table query returns zero rows. -/
def envTablesEmpty : DriverEnv (List String) (List TableInfo) :=
  { connect := fun _ => Except.ok (), exec := fun _ _ => Except.ok [] }

/-- Environment whose connection open fails (tables). -/
def envTablesFail : DriverEnv (List String) (List TableInfo) :=
  { connect := fun _ => Except.error "boom", exec := fun _ _ => Except.error "boom" }

/-- Environment whose query succeeds with no rows. -/
def envQueryOk : DriverEnv (Option (List JVal)) QueryData :=
  { connect := fun _ => Except.ok (),
    exec := fun _ _ => Except.ok { rows := [], fields := [] } }

/-- Environment whose connection open fails (query). -/
def envQueryFail : DriverEnv (Option (List JVal)) QueryData :=
  { connect := fun _ => Except.error "boom", exec := fun _ _ => Except.error "boom" }

/-- Environment whose liveness check succeeds. -/
def envTestOk : DriverEnv Unit Unit :=
  { connect := fun _ => Except.ok (), exec := fun _ _ => Except.ok () }

/-- Environment whose connection open fails (liveness). -/
def envTestFail : DriverEnv Unit Unit :=
  { connect := fun _ => Except.error "boom", exec := fun _ _ => Except.error "boom" }

/-- A backend that always succeeds. -/
def backendOk : DbCall → DatabaseResult JVal :=
  fun _ => { success := true, data := none, error := none, message := "ok" }

/-- A backend that always reports an operation failure. -/
def backendFail : DbCall → DatabaseResult JVal :=
  fun _ => { success := false, data := none, error := some "err", message := "failed" }

/-- A valid arguments object for `get_tables` / `test_connection`. -/
def validConnArgs : ToolArgs :=
  [("host", JVal.jStr "h"), ("user", JVal.jStr "u"),
   ("password", JVal.jStr "p"), ("database", JVal.jStr "db")]

/-- Sample command-line environment bundle. -/
def cliEnvSample : CliEnv :=
  { columnsEnv := envColumnsOne, tablesEnv := envTablesEmpty,
    queryEnv := envQueryOk, testEnv := envTestOk }

/-- A string append is nonempty when its left part is nonempty. -/
theorem append_ne_empty {s : String} (t : String) (h : s ≠ "") : s ++ t ≠ "" := by
  intro he
  apply h
  have h2 : s.length + t.length = 0 := by
    rw [← String.length_append, he]
    rfl
  have h3 : s.length = 0 := by omega
  cases s with
  | mk l =>
    cases l with
    | nil => rfl
    | cons c cs => simp at h3

/-- Claim C10: `createConnection` resolves the port with `port || 3306`,
so an omitted port and an explicit port `0` are both forwarded to the
driver as `3306` (hence the behaviour of the database functions is
identical for the two), while any nonzero port passes through. -/
theorem c10_port_zero_replaced_by_default (h u p d t : String)
    (connect : DriverConfig → Except String Unit)
    (envC : DriverEnv (List String) (List ColumnInfo)) :
    driverConfigOf { host := h, user := u, password := p, database := d, port := none } =
      { host := h, user := u, password := p, database := d, port := 3306 } ∧
    driverConfigOf { host := h, user := u, password := p, database := d, port := some 0 } =
      { host := h, user := u, password := p, database := d, port := 3306 } ∧
    createConnection { host := h, user := u, password := p, database := d, port := some 0 }
        connect =
      createConnection { host := h, user := u, password := p, database := d, port := none }
        connect ∧
    getTableColumns h u p d t (some 0) envC = getTableColumns h u p d t none envC ∧
    (∀ q : Int, q ≠ 0 →
      (driverConfigOf ⟨h, u, p, d, some q⟩).port = q) := by
  refine ⟨rfl, ?_, ?_, ?_, ?_⟩
  · simp [driverConfigOf, forwardedPort]
  · simp [createConnection, driverConfigOf, forwardedPort]
  · simp [getTableColumns, createConnection, driverConfigOf, forwardedPort]
  · intro q hq
    simp [driverConfigOf, forwardedPort, hq]

/-- Witness for C10 at a concrete nonzero port. -/
theorem c10_port_zero_replaced_by_default_witness :
    (5 : Int) ≠ 0 ∧
    (driverConfigOf ⟨"h", "u", "p", "db", some 5⟩).port = 5 :=
  ⟨by decide,
   (c10_port_zero_replaced_by_default "h" "u" "p" "db" "t"
       (fun _ => Except.ok ()) envColumnsOne).2.2.2.2 5 (by decide)⟩

/-- Claim C4: in each of the four database functions, the connection
trace is `[opened, closed]` when the driver-level open succeeds and
`[]` when it fails: every successful open is followed by exactly one
close before the function returns, on the success path and on every
error path alike, and a failed open is never closed. -/
theorem c4_connection_opened_then_closed_once (h u p d t q : String)
    (port : Option Int) (ps : Option (List JVal))
    (envC : DriverEnv (List String) (List ColumnInfo))
    (envT : DriverEnv (List String) (List TableInfo))
    (envQ : DriverEnv (Option (List JVal)) QueryData)
    (envX : DriverEnv Unit Unit) :
    (getTableColumns h u p d t port envC).2 =
      (match envC.connect (driverConfigOf ⟨h, u, p, d, port⟩) with
       | Except.ok _ => [ConnEvent.opened, ConnEvent.closed]
       | Except.error _ => ([] : List ConnEvent)) ∧
    (getTables h u p d port envT).2 =
      (match envT.connect (driverConfigOf ⟨h, u, p, d, port⟩) with
       | Except.ok _ => [ConnEvent.opened, ConnEvent.closed]
       | Except.error _ => ([] : List ConnEvent)) ∧
    (executeQuery h u p d q ps port envQ).2 =
      (match envQ.connect (driverConfigOf ⟨h, u, p, d, port⟩) with
       | Except.ok _ => [ConnEvent.opened, ConnEvent.closed]
       | Except.error _ => ([] : List ConnEvent)) ∧
    (testConnection h u p d port envX).2 =
      (match envX.connect (driverConfigOf ⟨h, u, p, d, port⟩) with
       | Except.ok _ => [ConnEvent.opened, ConnEvent.closed]
       | Except.error _ => ([] : List ConnEvent)) := by
  refine ⟨?_, ?_, ?_, ?_⟩
  · cases hc : envC.connect (driverConfigOf ⟨h, u, p, d, port⟩) with
    | error e => simp [getTableColumns, createConnection, hc]
    | ok v =>
      cases v
      cases hx : envC.exec columnsSql [d, t] with
      | error e => simp [getTableColumns, createConnection, hc, hx]
      | ok rows =>
        simp only [getTableColumns, createConnection, hc, hx]
        split <;> rfl
  · cases hc : envT.connect (driverConfigOf ⟨h, u, p, d, port⟩) with
    | error e => simp [getTables, createConnection, hc]
    | ok v =>
      cases v
      cases hx : envT.exec tablesSql [d] with
      | error e => simp [getTables, createConnection, hc, hx]
      | ok rows => simp [getTables, createConnection, hc, hx]
  · cases hc : envQ.connect (driverConfigOf ⟨h, u, p, d, port⟩) with
    | error e => simp [executeQuery, createConnection, hc]
    | ok v =>
      cases v
      cases hx : envQ.exec q ps with
      | error e => simp [executeQuery, createConnection, hc, hx]
      | ok qd => simp [executeQuery, createConnection, hc, hx]
  · cases hc : envX.connect (driverConfigOf ⟨h, u, p, d, port⟩) with
    | error e => simp [testConnection, createConnection, hc]
    | ok v =>
      cases v
      cases hx : envX.exec "SELECT 1" () with
      | error e => simp [testConnection, createConnection, hc, hx]
      | ok w => simp [testConnection, createConnection, hc, hx]

/-- Claim C1: when the catalog query of `getTableColumns` returns zero
rows the result is `success = false` with a message naming both the
table and the database, and when it returns one or more rows the
result is `success = true` with exactly those rows as `data`. -/
theorem c1_getTableColumns_zero_rows_is_failure (h u p d t : String)
    (port : Option Int) (env : DriverEnv (List String) (List ColumnInfo))
    (rows : List ColumnInfo)
    (hc : env.connect (driverConfigOf ⟨h, u, p, d, port⟩) = Except.ok ())
    (hx : env.exec columnsSql [d, t] = Except.ok rows) :
    (rows = [] →
       (getTableColumns h u p d t port env).1.success = false ∧
       (getTableColumns h u p d t port env).1.message =
         "Table " ++ t ++ " does not exist or has no columns in database " ++ d) ∧
    (rows ≠ [] →
       (getTableColumns h u p d t port env).1.success = true ∧
       (getTableColumns h u p d t port env).1.data = some rows) := by
  constructor
  · intro hr
    subst hr
    simp [getTableColumns, createConnection, hc, hx]
  · intro hr
    have hl : 0 < rows.length := List.length_pos.mpr hr
    simp [getTableColumns, createConnection, hc, hx, hl]

/-- Witness for C1 with one column row. -/
theorem c1_getTableColumns_zero_rows_is_failure_witness :
    ([sampleColumn] ≠ ([] : List ColumnInfo)) ∧
    (getTableColumns "h" "u" "p" "db" "t" none envColumnsOne).1.success = true ∧
    (getTableColumns "h" "u" "p" "db" "t" none envColumnsOne).1.data =
      some [sampleColumn] :=
  ⟨by decide,
   (c1_getTableColumns_zero_rows_is_failure "h" "u" "p" "db" "t" none envColumnsOne
       [sampleColumn] rfl rfl).2 (by decide)⟩

/-- Claim C3: in each of the four database functions, a driver error at
connection open, and a driver error at statement execution, are both
caught inside the function and converted into a result with
`success = false`, the underlying error string in `error`, and a
nonempty human-readable `message`; the functions themselves are total,
so nothing escapes to the caller. -/
theorem c3_driver_errors_converted_to_failure (h u p d t q : String)
    (port : Option Int) (ps : Option (List JVal)) (e : String)
    (envC : DriverEnv (List String) (List ColumnInfo))
    (envT : DriverEnv (List String) (List TableInfo))
    (envQ : DriverEnv (Option (List JVal)) QueryData)
    (envX : DriverEnv Unit Unit) :
    (envC.connect (driverConfigOf ⟨h, u, p, d, port⟩) = Except.error e →
       (getTableColumns h u p d t port envC).1.success = false ∧
       (getTableColumns h u p d t port envC).1.error =
         some ("Failed to connect to database: " ++ e) ∧
       (getTableColumns h u p d t port envC).1.message ≠ "") ∧
    (envC.connect (driverConfigOf ⟨h, u, p, d, port⟩) = Except.ok () →
     envC.exec columnsSql [d, t] = Except.error e →
       (getTableColumns h u p d t port envC).1.success = false ∧
       (getTableColumns h u p d t port envC).1.error = some e ∧
       (getTableColumns h u p d t port envC).1.message ≠ "") ∧
    (envT.connect (driverConfigOf ⟨h, u, p, d, port⟩) = Except.error e →
       (getTables h u p d port envT).1.success = false ∧
       (getTables h u p d port envT).1.error =
         some ("Failed to connect to database: " ++ e) ∧
       (getTables h u p d port envT).1.message ≠ "") ∧
    (envT.connect (driverConfigOf ⟨h, u, p, d, port⟩) = Except.ok () →
     envT.exec tablesSql [d] = Except.error e →
       (getTables h u p d port envT).1.success = false ∧
       (getTables h u p d port envT).1.error = some e ∧
       (getTables h u p d port envT).1.message ≠ "") ∧
    (envQ.connect (driverConfigOf ⟨h, u, p, d, port⟩) = Except.error e →
       (executeQuery h u p d q ps port envQ).1.success = false ∧
       (executeQuery h u p d q ps port envQ).1.error =
         some ("Failed to connect to database: " ++ e) ∧
       (executeQuery h u p d q ps port envQ).1.message ≠ "") ∧
    (envQ.connect (driverConfigOf ⟨h, u, p, d, port⟩) = Except.ok () →
     envQ.exec q ps = Except.error e →
       (executeQuery h u p d q ps port envQ).1.success = false ∧
       (executeQuery h u p d q ps port envQ).1.error = some e ∧
       (executeQuery h u p d q ps port envQ).1.message ≠ "") ∧
    (envX.connect (driverConfigOf ⟨h, u, p, d, port⟩) = Except.error e →
       (testConnection h u p d port envX).1.success = false ∧
       (testConnection h u p d port envX).1.error =
         some ("Failed to connect to database: " ++ e) ∧
       (testConnection h u p d port envX).1.message ≠ "") ∧
    (envX.connect (driverConfigOf ⟨h, u, p, d, port⟩) = Except.ok () →
     envX.exec "SELECT 1" () = Except.error e →
       (testConnection h u p d port envX).1.success = false ∧
       (testConnection h u p d port envX).1.error = some e ∧
       (testConnection h u p d port envX).1.message ≠ "") := by
  refine ⟨?_, ?_, ?_, ?_, ?_, ?_, ?_, ?_⟩
  · intro hc
    simp only [getTableColumns, createConnection, hc]
    exact ⟨trivial, trivial, append_ne_empty _ (append_ne_empty _ (append_ne_empty _ (by decide)))⟩
  · intro hc hx
    simp only [getTableColumns, createConnection, hc, hx]
    exact ⟨trivial, trivial, append_ne_empty _ (append_ne_empty _ (append_ne_empty _ (by decide)))⟩
  · intro hc
    simp only [getTables, createConnection, hc]
    exact ⟨trivial, trivial, append_ne_empty _ (append_ne_empty _ (append_ne_empty _ (by decide)))⟩
  · intro hc hx
    simp only [getTables, createConnection, hc, hx]
    exact ⟨trivial, trivial, append_ne_empty _ (append_ne_empty _ (append_ne_empty _ (by decide)))⟩
  · intro hc
    simp only [executeQuery, createConnection, hc]
    exact ⟨trivial, trivial, append_ne_empty _ (by decide)⟩
  · intro hc hx
    simp only [executeQuery, createConnection, hc, hx]
    exact ⟨trivial, trivial, append_ne_empty _ (by decide)⟩
  · intro hc
    simp only [testConnection, createConnection, hc]
    exact ⟨trivial, trivial,
      append_ne_empty _ (append_ne_empty _ (append_ne_empty _
        (append_ne_empty _ (append_ne_empty _ (by decide)))))⟩
  · intro hc hx
    simp only [testConnection, createConnection, hc, hx]
    exact ⟨trivial, trivial,
      append_ne_empty _ (append_ne_empty _ (append_ne_empty _
        (append_ne_empty _ (append_ne_empty _ (by decide)))))⟩

/-- Witness for C3: a failed connection open in `getTableColumns` is
reported as a failure result. -/
theorem c3_driver_errors_converted_to_failure_witness :
    (getTableColumns "h" "u" "p" "db" "t" none envColumnsFail).1.success = false ∧
    (getTableColumns "h" "u" "p" "db" "t" none envColumnsFail).1.error =
      some ("Failed to connect to database: " ++ "boom") ∧
    (getTableColumns "h" "u" "p" "db" "t" none envColumnsFail).1.message ≠ "" :=
  (c3_driver_errors_converted_to_failure "h" "u" "p" "db" "t" "q" none none "boom"
      envColumnsFail envTablesFail envQueryFail envTestFail).1 rfl

/-- Claim C5: when connection and catalog query succeed, `getTables`
returns `success = true` with exactly the returned rows as `data`
(the issued statement `tablesSql` orders them by table name), so a
schema with zero tables yields `success = true` with `data = some []`;
a connection failure instead yields `success = false`. -/
theorem c5_getTables_success_with_rows (h u p d : String) (port : Option Int)
    (envT : DriverEnv (List String) (List TableInfo)) (rows : List TableInfo)
    (e : String) :
    (envT.connect (driverConfigOf ⟨h, u, p, d, port⟩) = Except.ok () →
     envT.exec tablesSql [d] = Except.ok rows →
       (getTables h u p d port envT).1 =
         { success := true, data := some rows, error := none,
           message := "Successfully retrieved " ++ toString rows.length ++
             " tables from database " ++ d }) ∧
    (envT.connect (driverConfigOf ⟨h, u, p, d, port⟩) = Except.error e →
       (getTables h u p d port envT).1.success = false) := by
  constructor
  · intro hc hx
    simp [getTables, createConnection, hc, hx]
  · intro hc
    simp [getTables, createConnection, hc]

/-- Witness for C5: a schema with zero tables gives an
empty-but-successful result. -/
theorem c5_getTables_success_with_rows_witness :
    (getTables "h" "u" "p" "db" none envTablesEmpty).1.success = true ∧
    (getTables "h" "u" "p" "db" none envTablesEmpty).1.data =
      some ([] : List TableInfo) := by
  have hr := (c5_getTables_success_with_rows "h" "u" "p" "db" none envTablesEmpty
      [] "e").1 rfl rfl
  rw [hr]
  exact ⟨rfl, rfl⟩

/-- Claim C6: the result envelope invariant for the four database
functions: whenever `success = false`, the `data` field is absent and
the `message` field is a nonempty failure description (so exactly one
of the success shape and the failure shape holds). -/
theorem c6_envelope_invariant (h u p d t q : String) (port : Option Int)
    (ps : Option (List JVal))
    (envC : DriverEnv (List String) (List ColumnInfo))
    (envT : DriverEnv (List String) (List TableInfo))
    (envQ : DriverEnv (Option (List JVal)) QueryData)
    (envX : DriverEnv Unit Unit) :
    ((getTableColumns h u p d t port envC).1.success = false →
       (getTableColumns h u p d t port envC).1.data = none ∧
       (getTableColumns h u p d t port envC).1.message ≠ "") ∧
    ((getTables h u p d port envT).1.success = false →
       (getTables h u p d port envT).1.data = none ∧
       (getTables h u p d port envT).1.message ≠ "") ∧
    ((executeQuery h u p d q ps port envQ).1.success = false →
       (executeQuery h u p d q ps port envQ).1.data = none ∧
       (executeQuery h u p d q ps port envQ).1.message ≠ "") ∧
    ((testConnection h u p d port envX).1.success = false →
       (testConnection h u p d port envX).1.data = none ∧
       (testConnection h u p d port envX).1.message ≠ "") := by
  refine ⟨?_, ?_, ?_, ?_⟩
  · intro hs
    cases hc : envC.connect (driverConfigOf ⟨h, u, p, d, port⟩) with
    | error e =>
      simp only [getTableColumns, createConnection, hc]
      exact ⟨trivial, append_ne_empty _ (append_ne_empty _ (append_ne_empty _ (by decide)))⟩
    | ok v =>
      cases v
      cases hx : envC.exec columnsSql [d, t] with
      | error e =>
        simp only [getTableColumns, createConnection, hc, hx]
        exact ⟨trivial, append_ne_empty _ (append_ne_empty _ (append_ne_empty _ (by decide)))⟩
      | ok rows =>
        by_cases hl : rows.length > 0
        · simp [getTableColumns, createConnection, hc, hx, hl] at hs
        · simp only [getTableColumns, createConnection, hc, hx, if_neg hl]
          exact ⟨trivial,
            append_ne_empty _ (append_ne_empty _ (append_ne_empty _ (by decide)))⟩
  · intro hs
    cases hc : envT.connect (driverConfigOf ⟨h, u, p, d, port⟩) with
    | error e =>
      simp only [getTables, createConnection, hc]
      exact ⟨trivial, append_ne_empty _ (append_ne_empty _ (append_ne_empty _ (by decide)))⟩
    | ok v =>
      cases v
      cases hx : envT.exec tablesSql [d] with
      | error e =>
        simp only [getTables, createConnection, hc, hx]
        exact ⟨trivial, append_ne_empty _ (append_ne_empty _ (append_ne_empty _ (by decide)))⟩
      | ok rows => simp [getTables, createConnection, hc, hx] at hs
  · intro hs
    cases hc : envQ.connect (driverConfigOf ⟨h, u, p, d, port⟩) with
    | error e =>
      simp only [executeQuery, createConnection, hc]
      exact ⟨trivial, append_ne_empty _ (by decide)⟩
    | ok v =>
      cases v
      cases hx : envQ.exec q ps with
      | error e =>
        simp only [executeQuery, createConnection, hc, hx]
        exact ⟨trivial, append_ne_empty _ (by decide)⟩
      | ok qd => simp [executeQuery, createConnection, hc, hx] at hs
  · intro hs
    cases hc : envX.connect (driverConfigOf ⟨h, u, p, d, port⟩) with
    | error e =>
      simp only [testConnection, createConnection, hc]
      exact ⟨trivial,
        append_ne_empty _ (append_ne_empty _ (append_ne_empty _
          (append_ne_empty _ (append_ne_empty _ (by decide)))))⟩
    | ok v =>
      cases v
      cases hx : envX.exec "SELECT 1" () with
      | error e =>
        simp only [testConnection, createConnection, hc, hx]
        exact ⟨trivial,
          append_ne_empty _ (append_ne_empty _ (append_ne_empty _
            (append_ne_empty _ (append_ne_empty _ (by decide)))))⟩
      | ok w => simp [testConnection, createConnection, hc, hx] at hs

/-- Witness for C6: a failed `getTableColumns` call has absent data and
a nonempty message. -/
theorem c6_envelope_invariant_witness :
    (getTableColumns "h" "u" "p" "db" "t" none envColumnsFail).1.data = none ∧
    (getTableColumns "h" "u" "p" "db" "t" none envColumnsFail).1.message ≠ "" :=
  (c6_envelope_invariant "h" "u" "p" "db" "t" "q" none none
      envColumnsFail envTablesFail envQueryFail envTestFail).1 rfl

/-- Claim C2: for each of the four registered tools, an arguments
object that fails the tool's type guard makes the dispatcher answer
with an error-flagged response whose text names the tool and its
required fields, and the backend-call trace is empty: the underlying
database function is never invoked. -/
theorem c2_invalid_arguments_never_reach_backend (a : ToolArgs)
    (backend : DbCall → DatabaseResult JVal) :
    (isGetTableColumnsArgs a = false →
       handleCallTool "get_table_columns" (some a) backend =
         ({ text := "Error: Invalid arguments for get_table_columns. " ++
              "Required: host, user, password, database, tableName",
            isError := true }, [])) ∧
    (isDatabaseConnectionArgs a = false →
       handleCallTool "get_tables" (some a) backend =
         ({ text := "Error: Invalid arguments for get_tables. " ++
              "Required: host, user, password, database",
            isError := true }, [])) ∧
    (isExecuteQueryArgs a = false →
       handleCallTool "execute_query" (some a) backend =
         ({ text := "Error: Invalid arguments for execute_query. " ++
              "Required: host, user, password, database, query",
            isError := true }, [])) ∧
    (isDatabaseConnectionArgs a = false →
       handleCallTool "test_connection" (some a) backend =
         ({ text := "Error: Invalid arguments for test_connection. " ++
              "Required: host, user, password, database",
            isError := true }, [])) := by
  refine ⟨?_, ?_, ?_, ?_⟩ <;> intro hg <;> simp [handleCallTool, hg]

/-- Witness for C2: the empty arguments object fails every guard and is
rejected without a backend call. -/
theorem c2_invalid_arguments_never_reach_backend_witness :
    isGetTableColumnsArgs [] = false ∧
    handleCallTool "get_table_columns" (some []) backendOk =
      ({ text := "Error: Invalid arguments for get_table_columns. " ++
           "Required: host, user, password, database, tableName",
         isError := true }, []) :=
  ⟨rfl, (c2_invalid_arguments_never_reach_backend [] backendOk).1 rfl⟩

/-- Claim C7: a call with a tool name outside the four registered ones
is answered (the handler returns normally rather than terminating the
process) with an error-flagged response whose text includes that tool
name, and no backend call is made. -/
theorem c7_unknown_tool_reported (name : String) (a : ToolArgs)
    (backend : DbCall → DatabaseResult JVal)
    (h1 : name ≠ "get_table_columns") (h2 : name ≠ "get_tables")
    (h3 : name ≠ "execute_query") (h4 : name ≠ "test_connection") :
    handleCallTool name (some a) backend =
      ({ text := "Error: Unknown tool: " ++ name, isError := true }, []) := by
  simp [handleCallTool, h1, h2, h3, h4]

/-- Witness for C7 at a concrete unknown tool name. -/
theorem c7_unknown_tool_reported_witness :
    handleCallTool "drop_database" (some validConnArgs) backendOk =
      ({ text := "Error: Unknown tool: " ++ "drop_database", isError := true }, []) :=
  c7_unknown_tool_reported "drop_database" validConnArgs backendOk
    (by decide) (by decide) (by decide) (by decide)

/-- Claim C9: when validation passes, the dispatcher returns the
serialised backend result as an ordinary text response with
`isError = false`, whatever the result's `success` flag is (a
`success = false` operation result in particular); the response is
error-flagged only when the arguments object is missing, the tool's
type guard fails, or the tool name is unknown (`guardOf` is `false`
exactly in the latter two cases). -/
theorem c9_isError_only_for_dispatch_failures (name : String) (a : ToolArgs)
    (backend : DbCall → DatabaseResult JVal) :
    ((handleCallTool name none backend).1.isError = true) ∧
    (guardOf name a = true →
       ∃ c, handleCallTool name (some a) backend =
         ({ text := stringifyResult (backend c), isError := false }, [c])) ∧
    (guardOf name a = false →
       (handleCallTool name (some a) backend).1.isError = true ∧
       (handleCallTool name (some a) backend).2 = []) := by
  refine ⟨rfl, ?_, ?_⟩
  · intro hg
    by_cases h1 : name = "get_table_columns"
    · subst h1
      simp [guardOf] at hg
      exact ⟨DbCall.getTableColumnsCall (strField a "host") (strField a "user")
          (strField a "password") (strField a "database") (strField a "tableName")
          (portField a),
        by simp [handleCallTool, hg]⟩
    · by_cases h2 : name = "get_tables"
      · subst h2
        simp [guardOf] at hg
        exact ⟨DbCall.getTablesCall (strField a "host") (strField a "user")
            (strField a "password") (strField a "database") (portField a),
          by simp [handleCallTool, hg]⟩
      · by_cases h3 : name = "execute_query"
        · subst h3
          simp [guardOf] at hg
          exact ⟨DbCall.executeQueryCall (strField a "host") (strField a "user")
              (strField a "password") (strField a "database") (strField a "query")
              (paramsField a) (portField a),
            by simp [handleCallTool, hg]⟩
        · by_cases h4 : name = "test_connection"
          · subst h4
            simp [guardOf] at hg
            exact ⟨DbCall.testConnectionCall (strField a "host") (strField a "user")
                (strField a "password") (strField a "database") (portField a),
              by simp [handleCallTool, hg]⟩
          · exfalso
            simp [guardOf, h1, h2, h3, h4] at hg
  · intro hg
    by_cases h1 : name = "get_table_columns"
    · subst h1
      simp [guardOf] at hg
      simp [handleCallTool, hg]
    · by_cases h2 : name = "get_tables"
      · subst h2
        simp [guardOf] at hg
        simp [handleCallTool, hg]
      · by_cases h3 : name = "execute_query"
        · subst h3
          simp [guardOf] at hg
          simp [handleCallTool, hg]
        · by_cases h4 : name = "test_connection"
          · subst h4
            simp [guardOf] at hg
            simp [handleCallTool, hg]
          · simp [handleCallTool, h1, h2, h3, h4]

/-- Witness for C9: a valid `get_tables` call whose operation fails is
still an ordinary (non-error-flagged) response. -/
theorem c9_isError_only_for_dispatch_failures_witness :
    ∃ c, handleCallTool "get_tables" (some validConnArgs) backendFail =
      ({ text := stringifyResult (backendFail c), isError := false }, [c]) :=
  (c9_isError_only_for_dispatch_failures "get_tables" validConnArgs backendFail).2.1 rfl

/-- Claim C8: the command-line entry point exits with code 1 when fewer
than five arguments are given, when the command is unknown, and when
the extra parameter required by `columns` or `query` is missing; for a
well-formed invocation it exits with 0 exactly when the selected
operation returns `success = true` and with 1 when it returns
`success = false`. -/
theorem c8_cli_exit_codes (argv : List String) (env : CliEnv)
    (cmd host user pw db : String) (rest : List String) :
    (argv.length < 5 → mainRun argv env = 1) ∧
    (cmd ≠ "test" → cmd ≠ "tables" → cmd ≠ "columns" → cmd ≠ "query" →
       mainRun (cmd :: host :: user :: pw :: db :: rest) env = 1) ∧
    (mainRun ["columns", host, user, pw, db] env = 1) ∧
    (mainRun ["query", host, user, pw, db] env = 1) ∧
    (mainRun ("test" :: host :: user :: pw :: db :: rest) env =
       if (testConnection host user pw db none env.testEnv).1.success then 0 else 1) ∧
    (mainRun ("tables" :: host :: user :: pw :: db :: rest) env =
       if (getTables host user pw db none env.tablesEnv).1.success then 0 else 1) ∧
    (∀ tbl rest2, mainRun ("columns" :: host :: user :: pw :: db :: tbl :: rest2) env =
       if (getTableColumns host user pw db tbl none env.columnsEnv).1.success
       then 0 else 1) ∧
    (∀ sql rest2, mainRun ("query" :: host :: user :: pw :: db :: sql :: rest2) env =
       if (executeQuery host user pw db sql none none env.queryEnv).1.success
       then 0 else 1) := by
  refine ⟨?_, ?_, ?_, ?_, ?_, ?_, ?_, ?_⟩
  · intro hlt
    match argv, hlt with
    | [], _ => rfl
    | [_], _ => rfl
    | [_, _], _ => rfl
    | [_, _, _], _ => rfl
    | [_, _, _, _], _ => rfl
    | _ :: _ :: _ :: _ :: _ :: _, hlt => simp only [List.length_cons] at hlt; omega
  · intro h1 h2 h3 h4
    have hlen : ¬ ((cmd :: host :: user :: pw :: db :: rest).length < 5) := by
      simp only [List.length_cons]
      omega
    simp [mainRun, hlen, h1, h2, h3, h4]
  · rfl
  · rfl
  · have hlen : ¬ (("test" :: host :: user :: pw :: db :: rest).length < 5) := by
      simp only [List.length_cons]
      omega
    simp [mainRun, hlen, exitCodeOf]
  · have hlen : ¬ (("tables" :: host :: user :: pw :: db :: rest).length < 5) := by
      simp only [List.length_cons]
      omega
    simp [mainRun, hlen, exitCodeOf]
  · intro tbl rest2
    have hlen : ¬ (("columns" :: host :: user :: pw :: db :: tbl :: rest2).length < 5) := by
      simp only [List.length_cons]
      omega
    simp [mainRun, hlen, exitCodeOf]
  · intro sql rest2
    have hlen : ¬ (("query" :: host :: user :: pw :: db :: sql :: rest2).length < 5) := by
      simp only [List.length_cons]
      omega
    simp [mainRun, hlen, exitCodeOf]

/-- Witness for C8: an unknown command exits 1; a `test` invocation
exits by the operation's success flag. -/
theorem c8_cli_exit_codes_witness :
    mainRun ["frobnicate", "h", "u", "p", "db"] cliEnvSample = 1 ∧
    mainRun ("test" :: "h" :: "u" :: "p" :: "db" :: []) cliEnvSample =
      (if (testConnection "h" "u" "p" "db" none cliEnvSample.testEnv).1.success
       then 0 else 1) :=
  ⟨(c8_cli_exit_codes [] cliEnvSample "frobnicate" "h" "u" "p" "db" []).2.1
      (by decide) (by decide) (by decide) (by decide),
   (c8_cli_exit_codes [] cliEnvSample "test" "h" "u" "p" "db" []).2.2.2.2.1⟩
